import Mathlib

/-!
Shallow embedding of the pgfs FUSE filesystem adapter (src/main.rs) and a
verification of the specified properties against it.

Modelling conventions:
- Rust u64 values are Nat, with explicit wrap modulo 2 ^ 64 where the source
  arithmetic can overflow; i64 and i32 values are Int, with explicit cast
  helpers mirroring the `as` conversions of the source.
- The postgres client is an oracle (`Db`): `execOk` gives the success of an
  `execute` call and `insertId` the row id returned by `query_one` on the
  insert query.  Every SQL statement a handler issues is recorded in an
  output trace so that the database-visible behaviour can be reasoned about.
- HashMap and BiMap are association lists with insert-replaces semantics.
- `todo!()` handler bodies are modelled by the `Reply.panicked` outcome.
-/

namespace Pgfs

/-- 2 ^ 64, the modulus of Rust u64 arithmetic. -/
def U64 : Nat := 2 ^ 64

/-- Rust `x as u64` for an i64 value: reinterpret two-complement, i.e. mod 2 ^ 64. -/
def i64toU64 (x : Int) : Nat := (x % (2 ^ 64 : Int)).toNat

/-- Rust `x as i32` for an i64 value: truncate to the low 32 bits, reinterpret signed. -/
def i64toI32 (x : Int) : Int := (x + 2 ^ 31) % 2 ^ 32 - 2 ^ 31

/-- Rust `n as i32` for a u64/usize value. -/
def u64toI32 (n : Nat) : Int := ((n : Int) + 2 ^ 31) % 2 ^ 32 - 2 ^ 31

/-- libc error number ENOSYS. -/
def ENOSYS : Nat := 38

/-- libc error number ENOENT. -/
def ENOENT : Nat := 2

/-- libc error number ENODATA. -/
def ENODATA : Nat := 61

/-- libc error number EIO. -/
def EIO : Nat := 5

/-- libc error number EROFS. -/
def EROFS : Nat := 30

/-- libc error number EPERM. -/
def EPERM : Nat := 1

/-- libc error number EISDIR. -/
def EISDIR : Nat := 21

/-- fuser FileType, restricted to the variants the source uses. -/
inductive FileType where
  | directory
  | regularFile
deriving DecidableEq

/-- fuser FileAttr.  Times are seconds since the epoch as Nat (UNIX_EPOCH = 0). -/
structure FileAttr where
  ino : Nat
  size : Nat
  blocks : Nat
  atime : Nat
  mtime : Nat
  ctime : Nat
  crtime : Nat
  kind : FileType
  perm : Nat
  nlink : Nat
  uid : Nat
  gid : Nat
  rdev : Nat
  flags : Nat
  blksize : Nat
deriving DecidableEq

/-- The Table struct of src/main.rs. -/
structure Table where
  table_name : String
  id_field : String
  length_field : String
  bytea_field : String
  name_field : Option String
  query_string : String
  data_query_string : String
  read_only : Bool
  delete_query_string : Option String
  created_field : Option String
  modified_field : Option String
deriving DecidableEq

/-- The PgId struct of src/main.rs: (owning table inode, database row id as u64). -/
structure PgId where
  table_inode : Nat
  pg_id : Nat
deriving DecidableEq

/-- The ChildNode struct of src/main.rs: (parent inode, entry name). -/
structure ChildNode where
  parent : Nat
  name : String
deriving DecidableEq

/-- fuser TimeOrNow. -/
inductive TimeOrNow where
  | specificTime (t : Nat)
  | now
deriving DecidableEq

/-- The parameterised SQL statements the handlers issue, with the parameter
values exactly as the source passes them (after its integer casts). -/
inductive Query where
  | overlayQ (bytes : List Nat) (fromPos : Int) (forLen : Int) (rowId : Int)
  | truncateQ (newSize : Int) (rowId : Int)
  | deleteQ (rowId : Int)
  | insertQ (tableName : String) (fileName : String)
  | createdQ (t : Nat) (rowId : Int)
  | modifiedQ (t : Nat) (rowId : Int)
  | renameQ (newName : String) (oldName : String)
deriving DecidableEq

/-- Oracle for the postgres client: outcome of execute, and the id returned
by query_one on an insert (none models an Err result). -/
structure Db where
  execOk : Query → Bool
  insertId : Query → Option Int

/-- The replies a handler can send (or fail to send: noReply), plus the
panicked outcome of an unconditional todo. -/
inductive Reply where
  | attr (a : FileAttr)
  | entry (a : FileAttr)
  | created (a : FileAttr)
  | written (n : Nat)
  | ok
  | error (e : Nat)
  | noReply
  | panicked
deriving DecidableEq

/-- Result type of create_internal (Result of inode or errno, or a panic). -/
inductive CreateResult where
  | ok (ino : Nat)
  | err (e : Nat)
  | panicked
deriving DecidableEq

/-- The ByteaFileSystem struct of src/main.rs (the db client is passed to the
handlers as the `Db` oracle instead of being stored). -/
structure ByteaFileSystem where
  name : String
  next_inode : Nat
  tables : List (String × Table)
  inode_file_attrs : List (Nat × FileAttr)
  table_dir_inodes : List (Nat × String)
  file_inodes : List (Nat × (Table × PgId))
  entries : List (ChildNode × Nat)
  cache : List (Nat × (Int × List Nat))
deriving DecidableEq

/-- Association-list lookup (HashMap get / BiMap get_by_left). -/
def alistGet {κ α : Type} [DecidableEq κ] (k : κ) : List (κ × α) → Option α
  | [] => none
  | p :: rest => if p.1 = k then some p.2 else alistGet k rest

/-- Association-list removal (HashMap remove / BiMap remove_by_left). -/
def alistRemove {κ α : Type} [DecidableEq κ] (k : κ) : List (κ × α) → List (κ × α)
  | [] => []
  | p :: rest => if p.1 = k then alistRemove k rest else p :: alistRemove k rest

/-- Association-list insert with replacement (HashMap insert / BiMap insert). -/
def alistInsert {κ α : Type} [DecidableEq κ] (k : κ) (v : α) (m : List (κ × α)) :
    List (κ × α) :=
  (k, v) :: alistRemove k m

/-- Reverse lookup (BiMap get_by_right). -/
def alistGetByRight {κ α : Type} [DecidableEq α] (v : α) : List (κ × α) → Option κ
  | [] => none
  | p :: rest => if p.2 = v then some p.1 else alistGetByRight v rest

/-- ByteaFileSystem::dir_file_attr. -/
def ByteaFileSystem.dir_file_attr (inode : Nat) : FileAttr :=
  { ino := inode, size := 0, blocks := 0, atime := 0, mtime := 0, ctime := 0,
    crtime := 0, kind := FileType.directory, perm := 0o755, nlink := 3,
    uid := 1001, gid := 20, rdev := 0, flags := 0, blksize := 512 * 1024 }

/-- ByteaFileSystem::file_attr.  blocks is (size + 1) / (512 * 1024) with the
u64 addition wrapping; absent times default to the epoch. -/
def ByteaFileSystem.file_attr (inode size : Nat) (ctime mtime : Option Nat) : FileAttr :=
  { ino := inode, size := size, blocks := ((size + 1) % U64) / (512 * 1024),
    atime := 0, mtime := mtime.getD 0, ctime := ctime.getD 0, crtime := 0,
    kind := FileType.regularFile, perm := 0o755, nlink := 3, uid := 1001,
    gid := 20, rdev := 0, flags := 0, blksize := 512 * 1024 }

/-- ByteaFileSystem::new: root has inode 1, table directories get 2..len+1,
next_inode starts at len + 1 (the allocator pre-increments). -/
def ByteaFileSystem.new (name2 : String) (tables : List Table) : ByteaFileSystem :=
  { name := name2,
    next_inode := tables.length + 1,
    tables := tables.map (fun t => (t.table_name, t)),
    inode_file_attrs :=
      tables.enum.map (fun p => (p.1 + 2, ByteaFileSystem.dir_file_attr (p.1 + 2))),
    table_dir_inodes := tables.enum.map (fun p => (p.1 + 2, p.2.table_name)),
    file_inodes := [],
    entries := [],
    cache := [] }

/-- The tail of write_data_to_postgres: if a new length was produced and the
inode has attributes, set size to max(size, new_len as u64) and recompute
blocks as (size + 1) / blksize (u64 arithmetic). -/
def wdtpFinish (s : ByteaFileSystem) (ino : Nat) (trace : List Query)
    (new_len : Option Int) : ByteaFileSystem × List Query × Bool :=
  match alistGet ino s.inode_file_attrs, new_len with
  | some attrs, some n =>
      let size2 := max attrs.size (i64toU64 n)
      let attrs2 := { attrs with size := size2, blocks := ((size2 + 1) % U64) / attrs.blksize }
      ({ s with inode_file_attrs := alistInsert ino attrs2 s.inode_file_attrs }, trace, true)
  | _, _ => (s, trace, true)

/-- ByteaFileSystem::write_data_to_postgres.  Returns the new state, the trace
of SQL statements issued, and the boolean result of the source function.
The cache entry is removed before the first execute, mirroring
cache.remove; early false returns therefore keep that removal. -/
def ByteaFileSystem.write_data_to_postgres (s : ByteaFileSystem) (db : Db) (ino : Nat)
    (data : Option (Int × List Nat)) : ByteaFileSystem × List Query × Bool :=
  match alistGet ino s.file_inodes with
  | none => (s, [], true)
  | some (_table, pgid) =>
    match alistGet ino s.cache with
    | some (offset, cached_data) =>
      let s1 := { s with cache := alistRemove ino s.cache }
      match data with
      | some (doff, d) =>
        if i64toU64 offset + cached_data.length = i64toU64 doff then
          let cached2 := cached_data ++ d
          let q := Query.overlayQ cached2 (i64toI32 offset + 1)
                     (u64toI32 cached2.length) (u64toI32 pgid.pg_id)
          if db.execOk q then
            wdtpFinish s1 ino [q] (some (offset + (cached2.length : Int)))
          else (s1, [q], false)
        else
          let q1 := Query.overlayQ cached_data (i64toI32 offset + 1)
                      (u64toI32 cached_data.length) (u64toI32 pgid.pg_id)
          if db.execOk q1 then
            let q2 := Query.overlayQ d (i64toI32 doff + 1)
                        (u64toI32 d.length) (u64toI32 pgid.pg_id)
            if db.execOk q2 then
              wdtpFinish s1 ino [q1, q2]
                (some (offset + (offset + (cached_data.length : Int)) + (cached_data.length : Int)))
            else
              wdtpFinish s1 ino [q1, q2] (some (offset + (cached_data.length : Int)))
          else (s1, [q1], false)
      | none =>
        let q := Query.overlayQ cached_data (i64toI32 offset + 1)
                   (u64toI32 cached_data.length) (u64toI32 pgid.pg_id)
        if db.execOk q then
          wdtpFinish s1 ino [q] (some (offset + (cached_data.length : Int)))
        else (s1, [q], false)
    | none =>
      match data with
      | some (doff, d) =>
        let q := Query.overlayQ d (i64toI32 doff + 1)
                   (u64toI32 d.length) (u64toI32 pgid.pg_id)
        if db.execOk q then
          wdtpFinish s ino [q] (some (d.length : Int))
        else (s, [q], false)
      | none => wdtpFinish s ino [] none

/-- ByteaFileSystem::flush_internal. -/
def ByteaFileSystem.flush_internal (s : ByteaFileSystem) (db : Db) (ino : Nat) :
    ByteaFileSystem × List Query × Bool :=
  s.write_data_to_postgres db ino none

/-- Filesystem::write.  A write appends to a contiguous cache entry while the
result stays within 2097152 bytes (updating size and blocks), writes through
otherwise, and creates a fresh cache entry (without touching the attributes)
when none exists.  The reply is always written(len as u32). -/
def ByteaFileSystem.write (s : ByteaFileSystem) (db : Db) (ino : Nat) (offset : Int)
    (data : List Nat) : ByteaFileSystem × List Query × Reply :=
  match alistGet ino s.cache with
  | some (cached_offset, cached_data) =>
    if cached_offset + (cached_data.length : Int) = offset ∧
        cached_data.length + data.length ≤ 2097152 then
      let s1 := { s with cache := alistInsert ino (cached_offset, cached_data ++ data) s.cache }
      let s2 :=
        match alistGet ino s1.inode_file_attrs with
        | some attrs =>
          let size2 := max attrs.size (i64toU64 (offset + (data.length : Int)))
          { s1 with inode_file_attrs :=
              (alistInsert ino
                ({ attrs with size := size2, blocks := ((size2 + 1) % U64) / attrs.blksize })
                s1.inode_file_attrs) }
        | none => s1
      (s2, [], Reply.written (data.length % 2 ^ 32))
    else
      let r := s.write_data_to_postgres db ino (some (offset, data))
      (r.1, r.2.1, Reply.written (data.length % 2 ^ 32))
  | none =>
    ({ s with cache := alistInsert ino (offset, data) s.cache }, [],
      Reply.written (data.length % 2 ^ 32))

/-- Filesystem::setattr.  Each branch issues its SQL and then updates the
in-memory attribute field unconditionally; failures only set the error that
determines the final reply. -/
def ByteaFileSystem.setattr (s : ByteaFileSystem) (db : Db) (nowT : Nat) (ino : Nat)
    (size : Option Nat) (mtime : Option TimeOrNow) (ctime : Option Nat) :
    ByteaFileSystem × List Query × Reply :=
  let step1 : ByteaFileSystem × List Query × Option Nat :=
    match size with
    | some sz =>
      match alistGet ino s.file_inodes with
      | some (_t, pgid) =>
        let q := Query.truncateQ (u64toI32 sz) (u64toI32 pgid.pg_id)
        let e : Option Nat := if db.execOk q then none else some EIO
        let s2 :=
          match alistGet ino s.inode_file_attrs with
          | some attrs =>
            { s with inode_file_attrs := alistInsert ino ({ attrs with size := sz }) s.inode_file_attrs }
          | none => s
        (s2, [q], e)
      | none => (s, [], none)
    | none => (s, [], none)
  let s1 := step1.1
  let step2 : ByteaFileSystem × List Query × Option Nat :=
    match alistGet ino s1.file_inodes with
    | some (table, pgid) =>
      match ctime, table.created_field with
      | some ct, some _ =>
        let q := Query.createdQ ct (u64toI32 pgid.pg_id)
        let e : Option Nat := if db.execOk q then step1.2.2 else some EPERM
        let s2 :=
          match alistGet ino s1.inode_file_attrs with
          | some attrs =>
            { s1 with inode_file_attrs := alistInsert ino ({ attrs with ctime := ct }) s1.inode_file_attrs }
          | none => s1
        (s2, [q], e)
      | _, _ => (s1, [], step1.2.2)
    | none => (s1, [], step1.2.2)
  let s2 := step2.1
  let step3 : ByteaFileSystem × List Query × Option Nat :=
    match alistGet ino s2.file_inodes with
    | some (table, pgid) =>
      match mtime, table.modified_field with
      | some mt, some _ =>
        let time := match mt with
          | TimeOrNow.specificTime t => t
          | TimeOrNow.now => nowT
        let q := Query.modifiedQ time (u64toI32 pgid.pg_id)
        let e : Option Nat := if db.execOk q then step2.2.2 else some EPERM
        let s3 :=
          match alistGet ino s2.inode_file_attrs with
          | some attrs =>
            { s2 with inode_file_attrs := alistInsert ino ({ attrs with mtime := time }) s2.inode_file_attrs }
          | none => s2
        (s3, [q], e)
      | _, _ => (s2, [], step2.2.2)
    | none => (s2, [], step2.2.2)
  let s3 := step3.1
  let trace := step1.2.1 ++ step2.2.1 ++ step3.2.1
  match step3.2.2 with
  | none =>
    match alistGet ino s3.inode_file_attrs with
    | some attrs => (s3, trace, Reply.attr attrs)
    | none => (s3, trace, Reply.error ENODATA)
  | some e => (s3, trace, Reply.error e)

/-- Filesystem::unlink.  An unknown (parent, name) falls through to reply.ok
with no SQL and no state change; a known one removes the binding, issues the
delete (result ignored) and drops the cache, identity and attribute entries
without flushing.  The unwrap of the table lookup panics when the parent is
not a table directory. -/
def ByteaFileSystem.unlink (s : ByteaFileSystem) (db : Db) (parent : Nat) (name : String) :
    ByteaFileSystem × List Query × Reply :=
  match alistGet (ChildNode.mk parent name) s.entries with
  | none => (s, [], Reply.ok)
  | some ino =>
    let s1 := { s with entries := alistRemove (ChildNode.mk parent name) s.entries }
    let tname := (alistGet parent s.table_dir_inodes).getD ""
    match alistGet tname s1.tables with
    | none => (s1, [], Reply.panicked)
    | some _table =>
      match alistGet ino s1.file_inodes with
      | some (_t, pgid) =>
        let q := Query.deleteQ (u64toI32 pgid.pg_id)
        let _ := db.execOk q
        ({ s1 with cache := alistRemove ino s1.cache,
                   file_inodes := alistRemove ino s1.file_inodes,
                   inode_file_attrs := alistRemove ino s1.inode_file_attrs },
          [q], Reply.ok)
      | none => (s1, [], Reply.ok)

/-- Filesystem::rename.  Cross-directory renames fail with ENOSYS; otherwise
the name-column update runs and the in-memory entries map is left untouched. -/
def ByteaFileSystem.rename (s : ByteaFileSystem) (db : Db) (parent : Nat) (name : String)
    (newparent : Nat) (newname : String) : ByteaFileSystem × List Query × Reply :=
  if parent ≠ newparent then (s, [], Reply.error ENOSYS)
  else
    match alistGet parent s.table_dir_inodes with
    | some table_name =>
      match alistGet table_name s.tables with
      | some table =>
        match table.name_field with
        | none => (s, [], Reply.panicked)
        | some _ =>
          let q := Query.renameQ newname name
          if db.execOk q then (s, [q], Reply.ok) else (s, [q], Reply.error EIO)
      | none => (s, [], Reply.ok)
    | none => (s, [], Reply.ok)

/-- Filesystem::lookup.  Children of the root resolve through the
table-directory map, others through the entries map; a bound inode with no
attribute record sends no reply at all. -/
def ByteaFileSystem.lookup (s : ByteaFileSystem) (parent : Nat) (name : String) : Reply :=
  if parent = 1 then
    match alistGetByRight name s.table_dir_inodes with
    | some inode => Reply.entry (ByteaFileSystem.dir_file_attr inode)
    | none => Reply.error ENOENT
  else
    match alistGet (ChildNode.mk parent name) s.entries with
    | some inode =>
      match alistGet inode s.inode_file_attrs with
      | some attr => Reply.entry attr
      | none => Reply.noReply
    | none => Reply.error ENOENT

/-- Filesystem::create.  Root parent gets ENOENT; a parent that is not a bound
table directory falls off the end of the handler without sending any reply;
a read-only table gets EROFS before any SQL; otherwise the insert runs and on
success the bindings and attributes are registered. -/
def ByteaFileSystem.create (s : ByteaFileSystem) (db : Db) (nowT : Nat) (parent : Nat)
    (name : String) : ByteaFileSystem × List Query × Reply :=
  if parent = 1 then (s, [], Reply.error ENOENT)
  else
    match alistGet parent s.table_dir_inodes with
    | none => (s, [], Reply.noReply)
    | some table_name =>
      match alistGet table_name s.tables with
      | none => (s, [], Reply.noReply)
      | some table =>
        if table.read_only then (s, [], Reply.error EROFS)
        else
          let s1 := { s with next_inode := s.next_inode + 1 }
          let inode := s1.next_inode
          match table.name_field with
          | none => (s1, [], Reply.panicked)
          | some _ =>
            let q := Query.insertQ table_name name
            match db.insertId q with
            | none => (s1, [q], Reply.error ENOSYS)
            | some id =>
              let pg := i64toU64 id
              let fa := ByteaFileSystem.file_attr inode 0 (some nowT) (some nowT)
              ({ s1 with
                  file_inodes := alistInsert inode (table, PgId.mk parent pg) s1.file_inodes,
                  entries := alistInsert (ChildNode.mk parent name) inode s1.entries,
                  inode_file_attrs := alistInsert inode fa s1.inode_file_attrs },
                [q], Reply.created fa)

/-- ByteaFileSystem::create_internal.  Same logic as create, but failures are
returned as errno values and the fall-through case is Err(ENOSYS). -/
def ByteaFileSystem.create_internal (s : ByteaFileSystem) (db : Db) (nowT : Nat)
    (parent : Nat) (name : String) : ByteaFileSystem × List Query × CreateResult :=
  if parent = 1 then (s, [], CreateResult.err ENOENT)
  else
    match alistGet parent s.table_dir_inodes with
    | none => (s, [], CreateResult.err ENOSYS)
    | some table_name =>
      match alistGet table_name s.tables with
      | none => (s, [], CreateResult.err ENOSYS)
      | some table =>
        if table.read_only then (s, [], CreateResult.err EROFS)
        else
          let s1 := { s with next_inode := s.next_inode + 1 }
          let inode := s1.next_inode
          match table.name_field with
          | none => (s1, [], CreateResult.panicked)
          | some _ =>
            let q := Query.insertQ table_name name
            match db.insertId q with
            | none => (s1, [q], CreateResult.err ENOSYS)
            | some id =>
              let pg := i64toU64 id
              let fa := ByteaFileSystem.file_attr inode 0 (some nowT) (some nowT)
              ({ s1 with
                  file_inodes := alistInsert inode (table, PgId.mk parent pg) s1.file_inodes,
                  entries := alistInsert (ChildNode.mk parent name) inode s1.entries,
                  inode_file_attrs := alistInsert inode fa s1.inode_file_attrs },
                [q], CreateResult.ok inode)

/-- Filesystem::mknod: delegates to create_internal and replies entry or error. -/
def ByteaFileSystem.mknod (s : ByteaFileSystem) (db : Db) (nowT : Nat) (parent : Nat)
    (name : String) : ByteaFileSystem × List Query × Reply :=
  match s.create_internal db nowT parent name with
  | (s1, tr, CreateResult.ok r) =>
    (s1, tr, Reply.entry (ByteaFileSystem.file_attr r 0 (some nowT) (some nowT)))
  | (s1, tr, CreateResult.err e) => (s1, tr, Reply.error e)
  | (s1, tr, CreateResult.panicked) => (s1, tr, Reply.panicked)

/-- The incoming kernel requests the model dispatches, with the payloads of
the corresponding fuser handlers. -/
inductive Request where
  | lookupReq (parent : Nat) (name : String)
  | setattrReq (ino : Nat) (size : Option Nat) (mtime : Option TimeOrNow) (ctime : Option Nat)
  | writeReq (ino : Nat) (offset : Int) (data : List Nat)
  | flushReq (ino : Nat)
  | fsyncReq (ino : Nat)
  | releaseReq (ino : Nat)
  | unlinkReq (parent : Nat) (name : String)
  | renameReq (parent : Nat) (name : String) (newparent : Nat) (newname : String)
  | createReq (parent : Nat) (name : String)
  | mknodReq (parent : Nat) (name : String)
  | getlkReq (ino fh owner start endp : Nat) (typ : Int) (pid : Nat)
  | setlkReq (ino fh owner start endp : Nat) (typ : Int) (pid : Nat) (sleep : Bool)
  | bmapReq (ino blocksize idx : Nat)
  | ioctlReq (ino fh flags cmd : Nat) (in_data : List Nat) (out_size : Nat)
  | fallocateReq (ino fh : Nat) (offset length : Int) (mode : Int)
  | lseekReq (ino fh : Nat) (offset : Int) (whence : Int)
  | copyFileRangeReq (inoIn fhIn : Nat) (offIn : Int) (inoOut fhOut : Nat) (offOut : Int)
      (len flags : Nat)

/-- Single-threaded dispatch of one request: the next state, the SQL trace and
the reply.  The seven handlers whose bodies are an unconditional todo are
modelled as panicking. -/
def handleRequest (db : Db) (nowT : Nat) (s : ByteaFileSystem) :
    Request → ByteaFileSystem × List Query × Reply
  | Request.lookupReq p n => (s, [], s.lookup p n)
  | Request.setattrReq i sz mt ct => s.setattr db nowT i sz mt ct
  | Request.writeReq i o d => s.write db i o d
  | Request.flushReq i =>
      let r := s.write_data_to_postgres db i none
      (r.1, r.2.1, Reply.ok)
  | Request.fsyncReq i =>
      let r := s.write_data_to_postgres db i none
      (r.1, r.2.1, Reply.ok)
  | Request.releaseReq i =>
      let r := s.write_data_to_postgres db i none
      (r.1, r.2.1, Reply.ok)
  | Request.unlinkReq p n => s.unlink db p n
  | Request.renameReq p n np nn => s.rename db p n np nn
  | Request.createReq p n => s.create db nowT p n
  | Request.mknodReq p n => s.mknod db nowT p n
  | Request.getlkReq _ _ _ _ _ _ _ => (s, [], Reply.panicked)
  | Request.setlkReq _ _ _ _ _ _ _ _ => (s, [], Reply.panicked)
  | Request.bmapReq _ _ _ => (s, [], Reply.panicked)
  | Request.ioctlReq _ _ _ _ _ _ => (s, [], Reply.panicked)
  | Request.fallocateReq _ _ _ _ _ => (s, [], Reply.panicked)
  | Request.lseekReq _ _ _ _ => (s, [], Reply.panicked)
  | Request.copyFileRangeReq _ _ _ _ _ _ _ _ => (s, [], Reply.panicked)

/-- Run a sequence of requests from a state, keeping only the final state. -/
def runRequests (db : Db) (nowT : Nat) (s : ByteaFileSystem) : List Request → ByteaFileSystem
  | [] => s
  | r :: rs => runRequests db nowT (handleRequest db nowT s r).1 rs

/-! Configuration collaborator: the TableConfig record of src/config.rs and the
table-binding construction performed by main (src/main.rs lines 838-853). -/

/-- The TableConfig struct of src/config.rs. -/
structure TableConfig where
  table_name : String
  data_type : String
  id_field : String
  length_field : String
  data_field : String
  name_field : String
  data_query : String
  create_query : Option String
  update_query : Option String
  delete_query : Option String
  read_only : Bool
  uid : Option Nat
  gid : Option Nat
  created_date_field : Option String
  modified_date_field : Option String
deriving DecidableEq

/-- The table binding main constructs from a TableConfig before mounting.
Note that the read_only field of the binding is the literal false of the
source, not the configuration value. -/
def mkTableFromConfig (fs : TableConfig) : Table :=
  { table_name := fs.table_name,
    id_field := fs.id_field,
    length_field := fs.length_field,
    bytea_field := fs.data_field,
    name_field := some fs.name_field,
    query_string := fs.data_query,
    data_query_string :=
      "select substring(" ++ fs.data_field ++ ", $2, $3) from " ++ fs.table_name ++
        " where (" ++ fs.id_field ++ "=$1);",
    read_only := false,
    delete_query_string := none,
    created_field := fs.created_date_field,
    modified_field := fs.modified_date_field }

/-! Concrete fixtures used by the witnesses and counterexamples. -/

/-- A read-write table binding for the spec table named notes. -/
def notesTable : Table :=
  { table_name := "notes", id_field := "id", length_field := "length",
    bytea_field := "data", name_field := some "name",
    query_string := "select id, name, octet_length(data) as length from notes",
    data_query_string := "select substring(data, $2, $3) from notes where (id=$1);",
    read_only := false, delete_query_string := none,
    created_field := none, modified_field := none }

/-- A database oracle on which every statement succeeds and inserts return id 1. -/
def db0 : Db := { execOk := fun _ => true, insertId := fun _ => some 1 }

/-- A mounted state with the notes table (directory inode 2), one file a.txt
bound to inode 3 and row id 1 with attribute size 3, and a pending write-cache
entry of three bytes at offset 0 for inode 3. -/
def c2_state : ByteaFileSystem :=
  { name := "pgfs", next_inode := 3,
    tables := [("notes", notesTable)],
    inode_file_attrs := [(3, ByteaFileSystem.file_attr 3 3 none none),
                         (2, ByteaFileSystem.dir_file_attr 2)],
    table_dir_inodes := [(2, "notes")],
    file_inodes := [(3, (notesTable, PgId.mk 2 1))],
    entries := [(ChildNode.mk 2 "a.txt", 3)],
    cache := [(3, (0, [10, 20, 30]))] }

/-- Same mounted state but with no pending cache entry and attribute size 5. -/
def c5_state : ByteaFileSystem :=
  { name := "pgfs", next_inode := 3,
    tables := [("notes", notesTable)],
    inode_file_attrs := [(3, ByteaFileSystem.file_attr 3 5 none none),
                         (2, ByteaFileSystem.dir_file_attr 2)],
    table_dir_inodes := [(2, "notes")],
    file_inodes := [(3, (notesTable, PgId.mk 2 1))],
    entries := [(ChildNode.mk 2 "a.txt", 3)],
    cache := [] }

/-- A database oracle on which only the truncate statement fails. -/
def dbFailTruncate : Db :=
  { execOk := fun q => match q with
      | Query.truncateQ _ _ => false
      | _ => true,
    insertId := fun _ => none }

/-! General helper lemmas about the embedding. -/

theorem alistGet_insert_self {κ α : Type} [DecidableEq κ] (k : κ) (v : α) (m : List (κ × α)) :
    alistGet k (alistInsert k v m) = some v := by
  simp [alistInsert, alistGet]

theorem i64toU64_small (x : Int) (h0 : 0 ≤ x) (hb : x < 2 ^ 64) : i64toU64 x = x.toNat := by
  unfold i64toU64
  norm_num
  omega

theorem i64toU64_add_nat (x : Int) (n : Nat) (h0 : 0 ≤ x) (hb : x + n < 2 ^ 64) :
    i64toU64 (x + n) = i64toU64 x + n := by
  rw [i64toU64_small (x + n) (by positivity) hb, i64toU64_small x h0 (by omega)]
  omega

/-- The attribute-update tail of write_data_to_postgres passes its trace through. -/
theorem wdtpFinish_trace (s : ByteaFileSystem) (ino : Nat) (tr : List Query)
    (nl : Option Int) : (wdtpFinish s ino tr nl).2.1 = tr := by
  unfold wdtpFinish
  split <;> rfl

/-- When a pending cache entry cannot be extended, write delegates to
write_data_to_postgres and forwards its trace. -/
theorem write_passthrough_trace (db : Db) (s : ByteaFileSystem) (ino : Nat)
    (off doff : Int) (buf d : List Nat)
    (hc : alistGet ino s.cache = some (off, buf))
    (hcond : ¬ (off + (buf.length : Int) = doff ∧ buf.length + d.length ≤ 2097152)) :
    (s.write db ino doff d).2.1 = (s.write_data_to_postgres db ino (some (doff, d))).2.1 := by
  simp only [ByteaFileSystem.write, hc]
  rw [if_neg hcond]

/-- Flushing a cache entry together with contiguous extra data issues one
merged overlay. -/
theorem wdtp_contig_trace (db : Db) (s : ByteaFileSystem) (ino : Nat) (table : Table)
    (pgid : PgId) (off doff : Int) (buf d : List Nat)
    (hfi : alistGet ino s.file_inodes = some (table, pgid))
    (hc : alistGet ino s.cache = some (off, buf))
    (husize : i64toU64 off + buf.length = i64toU64 doff)
    (hdb : db.execOk (Query.overlayQ (buf ++ d) (i64toI32 off + 1)
        (u64toI32 (buf ++ d).length) (u64toI32 pgid.pg_id)) = true) :
    (s.write_data_to_postgres db ino (some (doff, d))).2.1 =
      [Query.overlayQ (buf ++ d) (i64toI32 off + 1) (u64toI32 (buf ++ d).length)
        (u64toI32 pgid.pg_id)] := by
  simp only [ByteaFileSystem.write_data_to_postgres, hfi, hc]
  rw [if_pos husize]
  simp only [hdb, if_true]
  rw [wdtpFinish_trace]

/-- Flushing a cache entry together with non-contiguous extra data issues two
separate overlays, the cached entry first. -/
theorem wdtp_noncontig_trace (db : Db) (s : ByteaFileSystem) (ino : Nat) (table : Table)
    (pgid : PgId) (off doff : Int) (buf d : List Nat)
    (hfi : alistGet ino s.file_inodes = some (table, pgid))
    (hc : alistGet ino s.cache = some (off, buf))
    (husize : ¬ (i64toU64 off + buf.length = i64toU64 doff))
    (hdb1 : db.execOk (Query.overlayQ buf (i64toI32 off + 1)
        (u64toI32 buf.length) (u64toI32 pgid.pg_id)) = true)
    (hdb2 : db.execOk (Query.overlayQ d (i64toI32 doff + 1)
        (u64toI32 d.length) (u64toI32 pgid.pg_id)) = true) :
    (s.write_data_to_postgres db ino (some (doff, d))).2.1 =
      [Query.overlayQ buf (i64toI32 off + 1) (u64toI32 buf.length) (u64toI32 pgid.pg_id),
       Query.overlayQ d (i64toI32 doff + 1) (u64toI32 d.length) (u64toI32 pgid.pg_id)] := by
  simp only [ByteaFileSystem.write_data_to_postgres, hfi, hc]
  rw [if_neg husize]
  simp only [hdb1, hdb2, if_true]
  rw [wdtpFinish_trace]

/-! Claim C1: the cache-size invariant. -/

/-- State reached from a fresh mount with the notes table by a create of
a.txt (which binds inode 3 with attribute size 0) followed by a one-byte
write at offset 0 (which creates a fresh cache entry for inode 3). -/
def c1_reached : ByteaFileSystem :=
  runRequests db0 0 (ByteaFileSystem.new "pgfs" [notesTable])
    [Request.createReq 2 "a.txt", Request.writeReq 3 0 [88]]

/-- Claim C1 is false as stated: in the reachable state after create followed
by a write that creates a new cache entry for the previously uncached inode 3,
the cache holds (offset 0, one byte) but the attribute size is still 0, which
is smaller than offset + length = 1. -/
theorem C1_counterexample :
    alistGet 3 c1_reached.cache = some (0, [88]) ∧
    (alistGet 3 c1_reached.inode_file_attrs).map FileAttr.size = some 0 ∧
    ¬ (i64toU64 0 + ([88] : List Nat).length ≤ 0) := by
  refine ⟨rfl, rfl, ?_⟩
  decide

/-- Claim C1 (corrected): the size bound holds for cache entries produced by
the append branch of write: when a write extends an existing cache entry (the
write is contiguous and the merged entry stays within 2097152 bytes), the
updated attribute size is at least the end offset of the merged entry.  The
bound is not established when a write creates a brand-new cache entry (see
the counterexample); it is reconciled only when the entry is flushed. -/
theorem C1_theorem (db : Db) (s : ByteaFileSystem) (ino : Nat) (off : Int)
    (buf d : List Nat) (attrs : FileAttr)
    (hc : alistGet ino s.cache = some (off, buf))
    (ha : alistGet ino s.inode_file_attrs = some attrs)
    (hlen : buf.length + d.length ≤ 2097152)
    (h0 : 0 ≤ off)
    (hb : off + (buf.length : Int) + (d.length : Int) < 2 ^ 64) :
    alistGet ino ((s.write db ino (off + (buf.length : Int)) d).1).cache =
      some (off, buf ++ d) ∧
    ∃ a2, alistGet ino ((s.write db ino (off + (buf.length : Int)) d).1).inode_file_attrs =
        some a2 ∧
      i64toU64 off + (buf ++ d).length ≤ a2.size := by
  have hkey : i64toU64 (off + (buf.length : Int) + (d.length : Int)) =
      i64toU64 off + (buf.length + d.length) := by
    have h2 := i64toU64_add_nat off (buf.length + d.length) h0 (by push_cast at hb ⊢; omega)
    rw [← h2]
    congr 1
    push_cast
    ring
  simp only [ByteaFileSystem.write, hc, ha, true_and]
  rw [if_pos hlen]
  dsimp only
  rw [alistGet_insert_self]
  refine ⟨rfl, _, alistGet_insert_self _ _ _, ?_⟩
  dsimp only
  rw [hkey]
  simp only [List.length_append]
  exact le_trans (by omega) (le_max_right _ _)

/-- A state with a one-byte cache entry at offset 0 for inode 3 whose
attribute record has size 1. -/
def c1w_state : ByteaFileSystem :=
  { name := "pgfs", next_inode := 3, tables := [],
    inode_file_attrs := [(3, ByteaFileSystem.file_attr 3 1 none none)],
    table_dir_inodes := [], file_inodes := [], entries := [],
    cache := [(3, (0, [1]))] }

/-- Witness for C1_theorem at a concrete appending write. -/
theorem C1_witness :
    (alistGet 3 c1w_state.cache = some (0, [1]) ∧
     alistGet 3 c1w_state.inode_file_attrs = some (ByteaFileSystem.file_attr 3 1 none none) ∧
     ([1] : List Nat).length + ([2] : List Nat).length ≤ 2097152 ∧
     (0 : Int) ≤ 0 ∧
     (0 : Int) + (([1] : List Nat).length : Int) + (([2] : List Nat).length : Int) < 2 ^ 64) ∧
    (alistGet 3 ((c1w_state.write db0 3 ((0 : Int) + (([1] : List Nat).length : Int)) [2]).1).cache =
       some (0, [1] ++ [2]) ∧
     ∃ a2, alistGet 3
         ((c1w_state.write db0 3 ((0 : Int) + (([1] : List Nat).length : Int)) [2]).1).inode_file_attrs =
           some a2 ∧
       i64toU64 0 + (([1] : List Nat) ++ [2]).length ≤ a2.size) :=
  ⟨⟨rfl, rfl, by decide, by decide, by decide⟩,
   C1_theorem db0 c1w_state 3 0 [1] [2] (ByteaFileSystem.file_attr 3 1 none none)
     rfl rfl (by decide) (by decide) (by decide)⟩

/-! Claim C2: flush before cache-invalidating SQL. -/

/-- Claim C2 is false on the code and the specification is the intent: with a
pending three-byte cache entry for inode 3, setattr with a size issues only
the truncate statement (no overlay) and even leaves the entry pending, and
unlink issues only the delete statement, dropping the entry without any
overlay. -/
theorem C2_theorem :
    (c2_state.setattr db0 0 3 (some 1) none none).2.1 = [Query.truncateQ 1 1] ∧
    alistGet 3 (c2_state.setattr db0 0 3 (some 1) none none).1.cache = some (0, [10, 20, 30]) ∧
    (c2_state.unlink db0 2 "a.txt").2.1 = [Query.deleteQ 1] ∧
    alistGet 3 (c2_state.unlink db0 2 "a.txt").1.cache = none := by
  decide

/-! Claim C3: the two-overlay break on a non-appendable write. -/

/-- The two-megabyte cache buffer of the spec scenario: 1 MiB of X then 1 MiB
of Y, as produced by an initial write and one contiguous append. -/
def bigBuf : List Nat := List.replicate 1048576 88 ++ List.replicate 1048576 89

/-- The state of the spec scenario right before the third write: file inode 3
with row id 7 and a pending cache entry (0, bigBuf). -/
def c3_state : ByteaFileSystem :=
  { name := "pgfs", next_inode := 3,
    tables := [("notes", notesTable)],
    inode_file_attrs := [(3, ByteaFileSystem.file_attr 3 0 none none),
                         (2, ByteaFileSystem.dir_file_attr 2)],
    table_dir_inodes := [(2, "notes")],
    file_inodes := [(3, (notesTable, PgId.mk 2 7))],
    entries := [(ChildNode.mk 2 "a.txt", 3)],
    cache := [(3, (0, bigBuf))] }

/-- Claim C3 is false as stated: the spec-scenario third write (one byte at
offset 2097152, contiguous with the pending 2 MiB entry but over the size
bound) produces a single merged overlay of 2097153 bytes, not two overlays. -/
theorem C3_counterexample :
    (c3_state.write db0 3 2097152 [90]).2.1 =
      [Query.overlayQ (bigBuf ++ [90]) 1 2097153 7] := by
  have hlen : bigBuf.length = 2097152 := by
    rw [bigBuf, List.length_append, List.length_replicate, List.length_replicate]
  have hca : alistGet 3 c3_state.cache = some (0, bigBuf) := by
    simp [c3_state, alistGet]
  have hfi : alistGet 3 c3_state.file_inodes = some (notesTable, PgId.mk 2 7) := by
    simp [c3_state, alistGet]
  have hcondF : ¬ ((0 : Int) + (bigBuf.length : Int) = 2097152 ∧
      bigBuf.length + [90].length ≤ 2097152) := by
    rw [hlen]
    norm_num
  have husize : i64toU64 0 + bigBuf.length = i64toU64 2097152 := by
    rw [hlen]
    decide
  have hlen2 : (bigBuf ++ [90]).length = 2097153 := by
    rw [List.length_append, hlen]
    rfl
  rw [write_passthrough_trace db0 c3_state 3 0 2097152 bigBuf [90] hca hcondF]
  rw [wdtp_contig_trace db0 c3_state 3 notesTable (PgId.mk 2 7) 0 2097152 bigBuf [90]
    hfi hca husize rfl]
  rw [hlen2]
  norm_num [i64toI32, u64toI32]

/-- Claim C3 (corrected): with a pending entry (off, buf) and a write of d at
doff that cannot be appended, the database sees two overlays, first (off, buf)
then (doff, d), only when the write is non-contiguous (doff differs from
off + length of buf); when the write is contiguous but the merged size
exceeds 2097152 bytes, the database sees exactly one merged overlay carrying
buf ++ d at the cached offset. -/
theorem C3_theorem (db : Db) (s : ByteaFileSystem) (ino : Nat) (table : Table)
    (pgid : PgId) (off doff : Int) (buf d : List Nat)
    (hfi : alistGet ino s.file_inodes = some (table, pgid))
    (hc : alistGet ino s.cache = some (off, buf))
    (hdb : ∀ q, db.execOk q = true)
    (h0 : 0 ≤ off) (hd0 : 0 ≤ doff)
    (hb : off + (buf.length : Int) < 2 ^ 64) (hb2 : doff < 2 ^ 64) :
    (off + (buf.length : Int) ≠ doff →
      (s.write db ino doff d).2.1 =
        [Query.overlayQ buf (i64toI32 off + 1) (u64toI32 buf.length) (u64toI32 pgid.pg_id),
         Query.overlayQ d (i64toI32 doff + 1) (u64toI32 d.length) (u64toI32 pgid.pg_id)]) ∧
    (off + (buf.length : Int) = doff → 2097152 < buf.length + d.length →
      (s.write db ino doff d).2.1 =
        [Query.overlayQ (buf ++ d) (i64toI32 off + 1) (u64toI32 (buf.length + d.length))
          (u64toI32 pgid.pg_id)]) := by
  constructor
  · intro hne
    have hcondF : ¬ (off + (buf.length : Int) = doff ∧ buf.length + d.length ≤ 2097152) := by
      intro h
      exact hne h.1
    have husize : ¬ (i64toU64 off + buf.length = i64toU64 doff) := by
      rw [i64toU64_small off h0 (by omega), i64toU64_small doff hd0 hb2]
      intro h
      apply hne
      omega
    rw [write_passthrough_trace db s ino off doff buf d hc hcondF]
    exact wdtp_noncontig_trace db s ino table pgid off doff buf d hfi hc husize (hdb _) (hdb _)
  · intro hco hbig
    have hcondF : ¬ (off + (buf.length : Int) = doff ∧ buf.length + d.length ≤ 2097152) := by
      intro h
      omega
    have husize : i64toU64 off + buf.length = i64toU64 doff := by
      rw [← hco, i64toU64_add_nat off buf.length h0 (by omega)]
    rw [write_passthrough_trace db s ino off doff buf d hc hcondF]
    rw [wdtp_contig_trace db s ino table pgid off doff buf d hfi hc husize (hdb _)]
    simp [List.length_append]

/-- A small state with a two-byte cache entry for inode 3 bound to row id 7,
for exercising the non-contiguous case of C3_theorem. -/
def c3w_state : ByteaFileSystem :=
  { name := "pgfs", next_inode := 3,
    tables := [("notes", notesTable)],
    inode_file_attrs := [(3, ByteaFileSystem.file_attr 3 2 none none)],
    table_dir_inodes := [(2, "notes")],
    file_inodes := [(3, (notesTable, PgId.mk 2 7))],
    entries := [(ChildNode.mk 2 "a.txt", 3)],
    cache := [(3, (0, [1, 2]))] }

/-- Witness for C3_theorem at a concrete non-contiguous write. -/
theorem C3_witness :
    (alistGet 3 c3w_state.file_inodes = some (notesTable, PgId.mk 2 7) ∧
     alistGet 3 c3w_state.cache = some (0, [1, 2]) ∧
     (∀ q, db0.execOk q = true) ∧
     (0 : Int) ≤ 0 ∧ (0 : Int) ≤ 5 ∧
     (0 : Int) + (([1, 2] : List Nat).length : Int) < 2 ^ 64 ∧ (5 : Int) < 2 ^ 64) ∧
    (((0 : Int) + (([1, 2] : List Nat).length : Int) ≠ 5 →
      (c3w_state.write db0 3 5 [9]).2.1 =
        [Query.overlayQ [1, 2] (i64toI32 0 + 1) (u64toI32 ([1, 2] : List Nat).length)
           (u64toI32 (PgId.mk 2 7).pg_id),
         Query.overlayQ [9] (i64toI32 5 + 1) (u64toI32 ([9] : List Nat).length)
           (u64toI32 (PgId.mk 2 7).pg_id)]) ∧
     ((0 : Int) + (([1, 2] : List Nat).length : Int) = 5 →
        2097152 < ([1, 2] : List Nat).length + ([9] : List Nat).length →
      (c3w_state.write db0 3 5 [9]).2.1 =
        [Query.overlayQ ([1, 2] ++ [9]) (i64toI32 0 + 1)
           (u64toI32 (([1, 2] : List Nat).length + ([9] : List Nat).length))
           (u64toI32 (PgId.mk 2 7).pg_id)])) :=
  ⟨⟨rfl, rfl, fun _ => rfl, by decide, by decide, by decide, by decide⟩,
   C3_theorem db0 c3w_state 3 notesTable (PgId.mk 2 7) 0 5 [1, 2] [9]
     rfl rfl (fun _ => rfl) (by decide) (by decide) (by decide) (by decide)⟩

/-! Claim C4: read-only enforcement from configuration. -/

/-- Configuration of the spec scenario: the pics table marked read-only. -/
def picsConfig : TableConfig :=
  { table_name := "pics", data_type := "bytea", id_field := "id", length_field := "length",
    data_field := "image", name_field := "name",
    data_query := "select id, name, octet_length(image) as length from pics",
    create_query := none, update_query := none, delete_query := none,
    read_only := true, uid := none, gid := none,
    created_date_field := none, modified_date_field := none }

/-- Fresh mount over the table binding main builds from picsConfig. -/
def c4_state : ByteaFileSystem := ByteaFileSystem.new "pgfs" [mkTableFromConfig picsConfig]

/-- Claim C4 is false on the code and the specification is the intent: even
though picsConfig is marked read-only, the binding main constructs carries
read_only = false, so create of new.png under the pics directory performs the
database insert and replies created instead of the read-only error. -/
theorem C4_theorem :
    picsConfig.read_only = true ∧
    (mkTableFromConfig picsConfig).read_only = false ∧
    (c4_state.create db0 0 2 "new.png").2.2 =
      Reply.created (ByteaFileSystem.file_attr 3 0 (some 0) (some 0)) ∧
    (c4_state.create db0 0 2 "new.png").2.1 = [Query.insertQ "pics" "new.png"] := by
  decide

/-! Claim C5: rename keeps lookups consistent. -/

/-- Claim C5 is false on the code and the specification is the intent: after a
successful rename of a.txt to b.txt under the notes directory, the in-memory
child-key binding is not updated, so lookup of the new name returns not-found
while lookup of the old name still resolves to inode 3. -/
theorem C5_theorem :
    (c5_state.rename db0 2 "a.txt" 2 "b.txt").2.2 = Reply.ok ∧
    ((c5_state.rename db0 2 "a.txt" 2 "b.txt").1).lookup 2 "b.txt" = Reply.error ENOENT ∧
    ((c5_state.rename db0 2 "a.txt" 2 "b.txt").1).lookup 2 "a.txt" =
      Reply.entry (ByteaFileSystem.file_attr 3 5 none none) := by
  decide

/-! Claim C6: setattr atomicity on SQL failure. -/

/-- Claim C6 is false on the code and the specification is the intent: when
the truncate statement fails, setattr replies with the I/O error as the claim
says, but the in-memory attribute size has nevertheless been changed from 5
to the requested 2 instead of being left unchanged. -/
theorem C6_theorem :
    (c5_state.setattr dbFailTruncate 0 3 (some 2) none none).2.2 = Reply.error EIO ∧
    (alistGet 3 (c5_state.setattr dbFailTruncate 0 3 (some 2) none none).1.inode_file_attrs).map
      FileAttr.size = some 2 := by
  decide

/-! Claim C7: the block-count formula. -/

/-- Claim C7 is false as stated: an attribute record created for a regular
file of size 0 has block count 0, although the ceiling formula of the claim
gives ceiling of 1 / 524288, which is 1. -/
theorem C7_counterexample :
    (ByteaFileSystem.file_attr 3 0 none none).blocks = 0 ∧ (0 + 1 + 524287) / 524288 = 1 := by
  decide

/-- Claim C7 (corrected): the blocks field is the floor, not the ceiling, of
(size + 1) / 524288.  This holds for every attribute record created by
file_attr (with the u64 sum not wrapping) — in particular a size-0 file has
block count 0 — and after every mutation of a file's size: the append branch
of write recomputes blocks in place, and every other size mutation (the
flush paths of flush/fsync/release/read and the write-through of a
non-appendable write) goes through the attribute-update tail of
write_data_to_postgres, modelled by wdtpFinish, which the third part covers
for an arbitrary produced length. -/
theorem C7_theorem (ino size : Nat) (ct mt : Option Nat) (hsz : size + 1 < 2 ^ 64)
    (db : Db) (s : ByteaFileSystem) (ino2 : Nat) (off : Int) (buf d : List Nat)
    (attrs : FileAttr)
    (hc : alistGet ino2 s.cache = some (off, buf))
    (ha : alistGet ino2 s.inode_file_attrs = some attrs)
    (hlen : buf.length + d.length ≤ 2097152)
    (h0 : 0 ≤ off)
    (hb : off + (buf.length : Int) + (d.length : Int) + 1 < 2 ^ 64)
    (hbs : attrs.blksize = 524288)
    (hsa : attrs.size + 1 < 2 ^ 64)
    (s3 : ByteaFileSystem) (ino3 : Nat) (tr : List Query) (n : Int) (attrs3 : FileAttr)
    (ha3 : alistGet ino3 s3.inode_file_attrs = some attrs3)
    (hbs3 : attrs3.blksize = 524288)
    (hsa3 : attrs3.size + 1 < 2 ^ 64)
    (hn : i64toU64 n + 1 < 2 ^ 64) :
    ((ByteaFileSystem.file_attr ino size ct mt).blocks * 524288 ≤ size + 1 ∧
     size + 1 < (ByteaFileSystem.file_attr ino size ct mt).blocks * 524288 + 524288 ∧
     (ByteaFileSystem.file_attr ino 0 ct mt).blocks = 0) ∧
    (∃ a2, alistGet ino2
        ((s.write db ino2 (off + (buf.length : Int)) d).1).inode_file_attrs = some a2 ∧
      a2.blocks * 524288 ≤ a2.size + 1 ∧ a2.size + 1 < a2.blocks * 524288 + 524288) ∧
    (∃ a3, alistGet ino3 ((wdtpFinish s3 ino3 tr (some n)).1).inode_file_attrs = some a3 ∧
      a3.blocks * 524288 ≤ a3.size + 1 ∧ a3.size + 1 < a3.blocks * 524288 + 524288) := by
  refine ⟨?_, ?_, ?_⟩
  · have hmod : (size + 1) % U64 = size + 1 := by
      unfold U64
      exact Nat.mod_eq_of_lt hsz
    refine ⟨?_, ?_, ?_⟩
    · simp only [ByteaFileSystem.file_attr]
      rw [hmod]
      omega
    · simp only [ByteaFileSystem.file_attr]
      rw [hmod]
      omega
    · rfl
  · have hm : i64toU64 (off + (buf.length : Int) + (d.length : Int)) + 1 < 2 ^ 64 := by
      rw [i64toU64_small _ (by positivity) (by omega)]
      omega
    simp only [ByteaFileSystem.write, hc, ha, true_and]
    rw [if_pos hlen]
    refine ⟨_, alistGet_insert_self _ _ _, ?_, ?_⟩ <;>
    · dsimp only
      rw [hbs]
      have hs2 : (attrs.size ⊔ i64toU64 (off + (buf.length : Int) + (d.length : Int))) + 1 <
          2 ^ 64 := by
        have hlt1 : attrs.size < 2 ^ 64 - 1 := by omega
        have hlt2 : i64toU64 (off + (buf.length : Int) + (d.length : Int)) < 2 ^ 64 - 1 := by
          omega
        have := sup_lt_iff.mpr ⟨hlt1, hlt2⟩
        omega
      have hmod2 : ((attrs.size ⊔ i64toU64 (off + (buf.length : Int) + (d.length : Int))) + 1) %
          U64 = (attrs.size ⊔ i64toU64 (off + (buf.length : Int) + (d.length : Int))) + 1 := by
        unfold U64
        exact Nat.mod_eq_of_lt hs2
      rw [hmod2]
      omega
  · simp only [wdtpFinish, ha3]
    refine ⟨_, alistGet_insert_self _ _ _, ?_, ?_⟩ <;>
    · dsimp only
      rw [hbs3]
      have hs3 : (attrs3.size ⊔ i64toU64 n) + 1 < 2 ^ 64 := by
        have hlt1 : attrs3.size < 2 ^ 64 - 1 := by omega
        have hlt2 : i64toU64 n < 2 ^ 64 - 1 := by omega
        have := sup_lt_iff.mpr ⟨hlt1, hlt2⟩
        omega
      have hmod3 : ((attrs3.size ⊔ i64toU64 n) + 1) % U64 =
          (attrs3.size ⊔ i64toU64 n) + 1 := by
        unfold U64
        exact Nat.mod_eq_of_lt hs3
      rw [hmod3]
      omega

/-- Witness for C7_theorem at size 5, a concrete appending write, and a
concrete flush-path attribute update producing length 2. -/
theorem C7_witness :
    (5 + 1 < 2 ^ 64 ∧
     alistGet 3 c1w_state.cache = some (0, [1]) ∧
     alistGet 3 c1w_state.inode_file_attrs = some (ByteaFileSystem.file_attr 3 1 none none) ∧
     ([1] : List Nat).length + ([2] : List Nat).length ≤ 2097152 ∧
     (0 : Int) ≤ 0 ∧
     (0 : Int) + (([1] : List Nat).length : Int) + (([2] : List Nat).length : Int) + 1 < 2 ^ 64 ∧
     (ByteaFileSystem.file_attr 3 1 none none).blksize = 524288 ∧
     (ByteaFileSystem.file_attr 3 1 none none).size + 1 < 2 ^ 64 ∧
     i64toU64 2 + 1 < 2 ^ 64) ∧
    (((ByteaFileSystem.file_attr 7 5 none none).blocks * 524288 ≤ 5 + 1 ∧
      5 + 1 < (ByteaFileSystem.file_attr 7 5 none none).blocks * 524288 + 524288 ∧
      (ByteaFileSystem.file_attr 7 0 none none).blocks = 0) ∧
     (∃ a2, alistGet 3
         ((c1w_state.write db0 3 ((0 : Int) + (([1] : List Nat).length : Int)) [2]).1).inode_file_attrs =
           some a2 ∧
       a2.blocks * 524288 ≤ a2.size + 1 ∧ a2.size + 1 < a2.blocks * 524288 + 524288) ∧
     (∃ a3, alistGet 3 ((wdtpFinish c1w_state 3 [] (some 2)).1).inode_file_attrs = some a3 ∧
       a3.blocks * 524288 ≤ a3.size + 1 ∧ a3.size + 1 < a3.blocks * 524288 + 524288)) :=
  ⟨⟨by decide, rfl, rfl, by decide, by decide, by decide, rfl, by decide, by decide⟩,
   C7_theorem 7 5 none none (by decide) db0 c1w_state 3 0 [1] [2]
     (ByteaFileSystem.file_attr 3 1 none none) rfl rfl (by decide) (by decide) (by decide)
     rfl (by decide) c1w_state 3 [] 2 (ByteaFileSystem.file_attr 3 1 none none)
     rfl rfl (by decide) (by decide)⟩

/-! Claim C8: the panicking handlers. -/

/-- Claim C8: for every incoming getlk, setlk, bmap, ioctl, fallocate, lseek
or copy_file_range request, the dispatcher panics (the handler body is an
unconditional todo) instead of replying with any error code. -/
theorem C8_theorem (db : Db) (nowT : Nat) (s : ByteaFileSystem)
    (ia fh owner sa ea : Nat) (typ : Int) (pid : Nat) (sleep : Bool)
    (bsz idx : Nat) (fla cmd : Nat) (ind : List Nat) (osz : Nat)
    (offa lena moda whe : Int) (ib fb : Nat) (ob : Int) (lnb flb : Nat) :
    handleRequest db nowT s (Request.getlkReq ia fh owner sa ea typ pid) =
      (s, [], Reply.panicked) ∧
    handleRequest db nowT s (Request.setlkReq ia fh owner sa ea typ pid sleep) =
      (s, [], Reply.panicked) ∧
    handleRequest db nowT s (Request.bmapReq ia bsz idx) = (s, [], Reply.panicked) ∧
    handleRequest db nowT s (Request.ioctlReq ia fh fla cmd ind osz) =
      (s, [], Reply.panicked) ∧
    handleRequest db nowT s (Request.fallocateReq ia fh offa lena moda) =
      (s, [], Reply.panicked) ∧
    handleRequest db nowT s (Request.lseekReq ia fh offa whe) = (s, [], Reply.panicked) ∧
    handleRequest db nowT s (Request.copyFileRangeReq ib fb ob ia fh offa lnb flb) =
      (s, [], Reply.panicked) :=
  ⟨rfl, rfl, rfl, rfl, rfl, rfl, rfl⟩

/-! Claim C9: unlink of an unknown name. -/

/-- Claim C9: when no child-key binding exists for (parent, name), unlink
issues no SQL, leaves the whole state unchanged, and replies success. -/
theorem C9_theorem (db : Db) (s : ByteaFileSystem) (parent : Nat) (name : String)
    (h : alistGet (ChildNode.mk parent name) s.entries = none) :
    s.unlink db parent name = (s, [], Reply.ok) := by
  simp only [ByteaFileSystem.unlink, h]

/-- Witness for C9_theorem on a fresh mount with no entries. -/
theorem C9_witness :
    alistGet (ChildNode.mk 2 "ghost.txt") (ByteaFileSystem.new "pgfs" []).entries = none ∧
    (ByteaFileSystem.new "pgfs" []).unlink db0 2 "ghost.txt" =
      (ByteaFileSystem.new "pgfs" [], [], Reply.ok) :=
  ⟨rfl, C9_theorem db0 (ByteaFileSystem.new "pgfs" []) 2 "ghost.txt" rfl⟩

/-! Claim C10: create with an invalid parent sends no reply. -/

/-- Claim C10: when the parent is neither inode 1 nor a bound table-directory
inode, create returns without sending any reply and issues no SQL, while
mknod with the same arguments replies with the not-implemented error. -/
theorem C10_theorem (db : Db) (nowT : Nat) (s : ByteaFileSystem) (parent : Nat)
    (name : String)
    (h1 : parent ≠ 1) (h2 : alistGet parent s.table_dir_inodes = none) :
    s.create db nowT parent name = (s, [], Reply.noReply) ∧
    s.mknod db nowT parent name = (s, [], Reply.error ENOSYS) := by
  constructor
  · simp only [ByteaFileSystem.create, if_neg h1, h2]
  · simp only [ByteaFileSystem.mknod, ByteaFileSystem.create_internal, if_neg h1, h2]

/-- Witness for C10_theorem at parent inode 5, which is bound to no table
directory of the notes mount. -/
theorem C10_witness :
    ((5 : Nat) ≠ 1 ∧
     alistGet 5 (ByteaFileSystem.new "pgfs" [notesTable]).table_dir_inodes = none) ∧
    ((ByteaFileSystem.new "pgfs" [notesTable]).create db0 0 5 "x.txt" =
      (ByteaFileSystem.new "pgfs" [notesTable], [], Reply.noReply) ∧
     (ByteaFileSystem.new "pgfs" [notesTable]).mknod db0 0 5 "x.txt" =
      (ByteaFileSystem.new "pgfs" [notesTable], [], Reply.error ENOSYS)) :=
  ⟨⟨by decide, by decide⟩,
   C10_theorem db0 0 (ByteaFileSystem.new "pgfs" [notesTable]) 5 "x.txt"
     (by decide) (by decide)⟩

end Pgfs
